import Mathlib

/-!
Shallow embedding of `src/iam_auto_assume.py`.

The script talks to AWS through boto3.  We model the outcome of each remote
call by an `Env` oracle (one field per boto3 operation, each returning
`Except String v` where an error stands for the raised client exception).
Each embedded function returns, besides its Python return value, the list of
AWS calls it issued (in order) and the list of messages it printed, so that
"performs no write" and "is logged" are statable.  Python `None` values,
`dict.get` defaults, `x in y` semantics (substring for strings, membership
for lists, `TypeError` when the right operand is `None` or the left operand
is `None` against a string) and the `KeyError` of
`trust_policy["Statement"].append(...)` are modelled explicitly; exceptions
are values of `Exc`, and the `try/except` blocks of the script become the
corresponding `match` structure.  `time.sleep(10)` has no observable effect
in a pure model beyond its printed message.
-/

namespace IamAutoAssume

/-- Result of `sts.get_caller_identity()`: the fields the script reads. -/
structure Identity where
  account : String
  arn : String
deriving DecidableEq, Repr

/-- Result of `sts.assume_role(...)['Credentials']`. -/
structure Credentials where
  accessKeyId : String
  secretAccessKey : String
  sessionToken : String
  expiration : String
deriving DecidableEq, Repr

/-- The value of a `Principal.AWS` key in a trust-policy statement:
Python `None`, a single ARN string, or a list of ARN strings. -/
inductive AwsVal where
  | null : AwsVal
  | str : String → AwsVal
  | list : List String → AwsVal
deriving DecidableEq, Repr

/-- One statement of a trust-policy document.  The script accesses
`statement.get("Effect")` and `statement.get("Principal", {}).get("AWS", [])`,
so a missing key is `none`. -/
structure Stmt where
  effect : Option String
  principalAWS : Option AwsVal
  action : Option AwsVal
deriving DecidableEq, Repr

/-- A trust-policy document: `statement = none` models a document whose
`"Statement"` key is absent. -/
structure TrustPolicy where
  statement : Option (List Stmt)
deriving DecidableEq, Repr

/-- The AWS API calls the script can issue, with their arguments. -/
inductive AwsCall where
  | getCallerIdentity : AwsCall
  | getRole : String → AwsCall
  | updateAssumeRolePolicy : String → TrustPolicy → AwsCall
  | assumeRole : String → String → AwsCall
deriving DecidableEq, Repr

/-- Exceptions that can be raised while the script runs: a client error
from a boto3 call (with its message), or a Python `TypeError` / `KeyError`. -/
inductive Exc where
  | aws : String → Exc
  | typeError : Exc
  | keyError : Exc
deriving DecidableEq, Repr

/-- Oracle fixing the outcome of every remote call. -/
structure Env where
  callerIdentity : Except String Identity
  getRole : String → Except String TrustPolicy
  updatePolicy : String → TrustPolicy → Except String Unit
  stsAssumeRole : String → String → Except String Credentials

/-- Python `str(x)` / f-string interpolation of an optional string:
`None` prints as `"None"`. -/
def pyStr : Option String → String
  | some s => s
  | none => "None"

/-- Message of an exception, as interpolated by `str(e)` in the script. -/
def excMsg : Exc → String
  | Exc.aws m => m
  | Exc.typeError => "argument of type NoneType is not iterable"
  | Exc.keyError => "KeyError: Statement"

/-- The `print` of the `except` clause of `update_trust_policy`. -/
def errorLog (e : Exc) : String := "An error occurred: " ++ excMsg e

/-- The `print` of the already-granted early return. -/
def alreadyLog (arn : Option String) (target : String) : String :=
  "The role " ++ pyStr arn ++ " is already allowed to assume " ++ target ++ "."

/-- The `print` after a successful `update_assume_role_policy` call. -/
def updatedLog (target : String) (arn : Option String) : String :=
  "Updated the trust policy for role " ++ target ++ " to allow " ++ pyStr arn
    ++ " to assume it."

/-- The `print` before the 10-second propagation sleep. -/
def waitingLog : String := "Waiting 10s for the trust policy update to propagate..."

/-- `startsWithL needle hay`: `needle` is an initial segment of `hay`. -/
def startsWithL : List Char → List Char → Bool
  | [], _ => true
  | _ :: _, [] => false
  | a :: as, b :: bs => a == b && startsWithL as bs

/-- `hasSubL needle hay`: `needle` occurs contiguously inside `hay`. -/
def hasSubL (needle : List Char) : List Char → Bool
  | [] => needle.isEmpty
  | c :: rest => startsWithL needle (c :: rest) || hasSubL needle rest

/-- Python `needle in hay` for strings: substring containment. -/
def pyInStr (needle hay : String) : Bool := hasSubL needle.toList hay.toList

/-- Python `arn in v` where `v` is the `Principal.AWS` value and `arn` the
(possibly `None`) granting ARN.  `x in <string>` is a substring test and
raises `TypeError` when `x` is `None`; `x in <list of strings>` is element
membership (`None` is not among strings); `x in None` raises `TypeError`. -/
def pyInAws (arn : Option String) : AwsVal → Except Exc Bool
  | AwsVal.null => Except.error Exc.typeError
  | AwsVal.str s =>
      match arn with
      | some a => Except.ok (pyInStr a s)
      | none => Except.error Exc.typeError
  | AwsVal.list l =>
      match arn with
      | some a => Except.ok (l.contains a)
      | none => Except.ok false

/-- One iteration of the scan loop of `update_trust_policy`:
`statement.get("Effect") == "Allow" and current_role_arn in
statement.get("Principal", {}).get("AWS", [])`.  The `and` short-circuits,
and a missing `Principal`/`AWS` key defaults to `[]`. -/
def stmtMatches (arn : Option String) (s : Stmt) : Except Exc Bool :=
  if s.effect = some "Allow" then
    match s.principalAWS with
    | none => Except.ok false
    | some v => pyInAws arn v
  else Except.ok false

/-- The scan loop over `trust_policy.get("Statement", [])`: stops at the
first match (early `return`) or the first raised exception. -/
def scanStatements (arn : Option String) : List Stmt → Except Exc Bool
  | [] => Except.ok false
  | s :: rest =>
      match stmtMatches arn s with
      | Except.error e => Except.error e
      | Except.ok true => Except.ok true
      | Except.ok false => scanStatements arn rest

/-- The statement appended by `update_trust_policy`:
`{"Effect": "Allow", "Principal": {"AWS": current_role_arn},
"Action": "sts:AssumeRole"}`. -/
def newStatement (arn : Option String) : Stmt :=
  { effect := some "Allow"
  , principalAWS := some (match arn with
      | some a => AwsVal.str a
      | none => AwsVal.null)
  , action := some (AwsVal.str "sts:AssumeRole") }

/-- `get_current_account_id()`: returns the account id, or `None` after
logging when the `get_caller_identity` call raises. -/
def get_current_account_id (env : Env) :
    Option String × List AwsCall × List String :=
  match env.callerIdentity with
  | Except.ok idt => (some idt.account, [AwsCall.getCallerIdentity], [])
  | Except.error e =>
      (none, [AwsCall.getCallerIdentity],
       ["An error occurred while retrieving the current account ID: " ++ e])

/-- `construct_role_arn(role_name)`: formats
`f"arn:aws:iam::{account_id}:role/{role_name}"`, where a `None` account id
is interpolated as the text `None`. -/
def construct_role_arn (env : Env) (role_name : String) :
    String × List AwsCall × List String :=
  let r := get_current_account_id env
  ("arn:aws:iam::" ++ pyStr r.1 ++ ":role/" ++ role_name, r.2.1, r.2.2)

/-- `get_current_role_arn()`: returns the caller ARN, or `None` after
logging when the `get_caller_identity` call raises. -/
def get_current_role_arn (env : Env) :
    Option String × List AwsCall × List String :=
  match env.callerIdentity with
  | Except.ok idt => (some idt.arn, [AwsCall.getCallerIdentity], [])
  | Except.error e =>
      (none, [AwsCall.getCallerIdentity],
       ["An error occurred while retrieving the current role ARN: " ++ e])

/-- `update_trust_policy(target_role_name, current_role_arn)`.  The whole
body sits inside `try/except Exception`, so every raised exception (client
error of `get_role` or `update_assume_role_policy`, the scan's `TypeError`,
the `KeyError` of appending to a missing `Statement` list) ends in the
`except` clause: one error message is printed and the function returns
normally.  The Python return value is always `None`; what we return is the
pair (calls issued, messages printed). -/
def update_trust_policy (env : Env) (target : String) (arn : Option String) :
    List AwsCall × List String :=
  match env.getRole target with
  | Except.error e => ([AwsCall.getRole target], [errorLog (Exc.aws e)])
  | Except.ok p =>
      match scanStatements arn (p.statement.getD []) with
      | Except.error e => ([AwsCall.getRole target], [errorLog e])
      | Except.ok true => ([AwsCall.getRole target], [alreadyLog arn target])
      | Except.ok false =>
          match p.statement with
          | none => ([AwsCall.getRole target], [errorLog Exc.keyError])
          | some stmts =>
              let doc : TrustPolicy := ⟨some (stmts ++ [newStatement arn])⟩
              match env.updatePolicy target doc with
              | Except.error e =>
                  ([AwsCall.getRole target,
                    AwsCall.updateAssumeRolePolicy target doc],
                   [errorLog (Exc.aws e)])
              | Except.ok _ =>
                  ([AwsCall.getRole target,
                    AwsCall.updateAssumeRolePolicy target doc],
                   [updatedLog target arn, waitingLog])

/-- `assume_role(role_arn)`: calls `assume_role` with the fixed session name
`TestRoleSession`; returns the credentials, or `None` after logging when the
call raises a client error. -/
def assume_role (env : Env) (role_arn : String) :
    Option Credentials × List AwsCall × List String :=
  match env.stsAssumeRole role_arn "TestRoleSession" with
  | Except.ok c => (some c, [AwsCall.assumeRole role_arn "TestRoleSession"], [])
  | Except.error e =>
      (none, [AwsCall.assumeRole role_arn "TestRoleSession"],
       ["Failed to assume role: " ++ e])

/-- `auto_assume(role_name)`: runs
`update_trust_policy(role_name, get_current_role_arn())` then
`assume_role(construct_role_arn(role_name))` and returns the credentials. -/
def auto_assume (env : Env) (role_name : String) :
    Option Credentials × List AwsCall × List String :=
  let idr := get_current_role_arn env
  let upd := update_trust_policy env role_name idr.1
  let cra := construct_role_arn env role_name
  let asr := assume_role env cra.1
  (asr.1,
   idr.2.1 ++ upd.1 ++ cra.2.1 ++ asr.2.1,
   idr.2.2 ++ upd.2 ++ cra.2.2 ++ asr.2.2)

/-- The already-granted predicate as a boolean on one statement, for a
non-`None` granting ARN: `Effect == "Allow"` and the ARN occurs in the
`Principal.AWS` value in the code's sense (substring of a string value,
member of a list value). -/
def matchesB (a : String) (s : Stmt) : Bool :=
  if s.effect = some "Allow" then
    match s.principalAWS with
    | some (AwsVal.str h) => pyInStr a h
    | some (AwsVal.list l) => l.contains a
    | _ => false
  else false

/-- Number of Allow statements whose `Principal.AWS` contains the ARN. -/
def countAllowMatching (a : String) (l : List Stmt) : Nat :=
  (l.filter (matchesB a)).length

/-! ## Helper lemmas -/

theorem startsWithL_self (l : List Char) : startsWithL l l = true := by
  induction l with
  | nil => rfl
  | cons c cs ih => simp [startsWithL, ih]

theorem pyInStr_self (a : String) : pyInStr a a = true := by
  unfold pyInStr
  cases h : a.toList with
  | nil => simp [hasSubL]
  | cons c cs => simp [hasSubL, startsWithL_self]

theorem scanStatements_append_of_false (arn : Option String) (l' : List Stmt) :
    ∀ l : List Stmt, scanStatements arn l = Except.ok false →
      scanStatements arn (l ++ l') = scanStatements arn l'
  | [], _ => rfl
  | s :: rest, h => by
      cases hm : stmtMatches arn s with
      | error e => simp [scanStatements, hm] at h
      | ok b =>
          cases b with
          | true => simp [scanStatements, hm] at h
          | false =>
              simp only [scanStatements, hm] at h
              simp only [List.cons_append, scanStatements, hm]
              exact scanStatements_append_of_false arn l' rest h

theorem stmtMatches_of_scan_false (arn : Option String) :
    ∀ l : List Stmt, scanStatements arn l = Except.ok false →
      ∀ s ∈ l, stmtMatches arn s = Except.ok false
  | [], _, s, hs => absurd hs (List.not_mem_nil s)
  | t :: rest, h, s, hs => by
      cases hm : stmtMatches arn t with
      | error e => simp [scanStatements, hm] at h
      | ok b =>
          cases b with
          | true => simp [scanStatements, hm] at h
          | false =>
              simp only [scanStatements, hm] at h
              rcases List.mem_cons.mp hs with hs1 | hs2
              · exact hs1 ▸ hm
              · exact stmtMatches_of_scan_false arn rest h s hs2

theorem matchesB_eq_false_of_stmtMatches (a : String) (s : Stmt)
    (h : stmtMatches (some a) s = Except.ok false) : matchesB a s = false := by
  unfold stmtMatches at h
  unfold matchesB
  by_cases he : s.effect = some "Allow"
  · rw [if_pos he] at h
    rw [if_pos he]
    cases hp : s.principalAWS with
    | none => rfl
    | some v =>
        rw [hp] at h
        cases v with
        | null => simp [pyInAws] at h
        | str st => simpa [pyInAws] using h
        | list l => simpa [pyInAws] using h
  · rw [if_neg he] at h
    rw [if_neg he]

theorem matchesB_newStatement (a : String) :
    matchesB a (newStatement (some a)) = true := by
  simp [matchesB, newStatement, pyInStr_self]

theorem stmtMatches_newStatement (a : String) :
    stmtMatches (some a) (newStatement (some a)) = Except.ok true := by
  simp [stmtMatches, newStatement, pyInAws, pyInStr_self]

theorem getRole_mem_update_trace (env : Env) (t : String) (arn : Option String) :
    AwsCall.getRole t ∈ (update_trust_policy env t arn).1 := by
  unfold update_trust_policy
  cases hg : env.getRole t with
  | error e => simp
  | ok p =>
      cases hs : scanStatements arn (p.statement.getD []) with
      | error e => simp [hs]
      | ok b =>
          cases b with
          | true => simp [hs]
          | false =>
              cases hp : p.statement with
              | none =>
                  simp only [hp, Option.getD_none] at hs
                  simp [hp, hs]
              | some stmts =>
                  simp only [hp, Option.getD_some] at hs
                  cases hu : env.updatePolicy t ⟨some (stmts ++ [newStatement arn])⟩ with
                  | error e => simp [hp, hs, hu]
                  | ok u => simp [hp, hs, hu]

theorem assume_role_trace (env : Env) (ra : String) :
    (assume_role env ra).2.1 = [AwsCall.assumeRole ra "TestRoleSession"] := by
  unfold assume_role
  cases h : env.stsAssumeRole ra "TestRoleSession" with
  | error e => rfl
  | ok c => rfl

/-! ## Claim C1 -/

/-- Environment in which identity resolution raises (a network error), the
target role has an empty `Statement` list, the policy write succeeds, and the
assume-role call is denied. -/
def cexEnvC1 : Env :=
  { callerIdentity := Except.error "network error"
  , getRole := fun _ => Except.ok ⟨some []⟩
  , updatePolicy := fun _ _ => Except.ok ()
  , stsAssumeRole := fun _ _ => Except.error "AccessDenied" }

/-- Claim C1 is false on the code: in an environment where identity
resolution fails (`get_current_role_arn` returns `None`), `auto_assume`
does return `None`, but the flow does not halt — the trace still contains
the get-role call, an update-assume-role-policy write (granting a `None`
principal), and an assume-role call on an ARN with `None` in the account
position. -/
theorem c1_counterexample :
    (get_current_role_arn cexEnvC1).1 = none
    ∧ (auto_assume cexEnvC1 "TestRole").1 = none
    ∧ AwsCall.getRole "TestRole" ∈ (auto_assume cexEnvC1 "TestRole").2.1
    ∧ AwsCall.updateAssumeRolePolicy "TestRole" ⟨some [newStatement none]⟩
        ∈ (auto_assume cexEnvC1 "TestRole").2.1
    ∧ AwsCall.assumeRole "arn:aws:iam::None:role/TestRole" "TestRoleSession"
        ∈ (auto_assume cexEnvC1 "TestRole").2.1 := by
  decide

/-- Claim C1 (amended): if identity resolution fails, `auto_assume` does not
halt: `update_trust_policy` is still invoked with a `None` principal (so the
get-role call is still attempted), and the assume-role call is still
attempted, on an ARN whose account position holds the text `None`;
`auto_assume` returns `None` exactly when that assume-role call fails. -/
theorem c1_amended (env : Env) (role e : String)
    (hid : env.callerIdentity = Except.error e) :
    (get_current_role_arn env).1 = none
    ∧ AwsCall.getRole role ∈ (auto_assume env role).2.1
    ∧ AwsCall.assumeRole ("arn:aws:iam::None:role/" ++ role) "TestRoleSession"
        ∈ (auto_assume env role).2.1
    ∧ ((auto_assume env role).1 = none
        ↔ ∃ msg, env.stsAssumeRole ("arn:aws:iam::None:role/" ++ role)
            "TestRoleSession" = Except.error msg) := by
  have harn : (construct_role_arn env role).1 = "arn:aws:iam::None:role/" ++ role := by
    simp only [construct_role_arn, get_current_account_id, hid, pyStr]
    rfl
  refine ⟨by simp [get_current_role_arn, hid], ?_, ?_, ?_⟩
  · unfold auto_assume
    simp only [List.mem_append]
    exact Or.inl (Or.inl (Or.inr (getRole_mem_update_trace env role _)))
  · unfold auto_assume
    simp only [List.mem_append]
    refine Or.inr ?_
    rw [assume_role_trace, harn]
    exact List.mem_singleton.mpr rfl
  · show (assume_role env (construct_role_arn env role).1).1 = none ↔ _
    rw [harn]
    unfold assume_role
    cases hA : env.stsAssumeRole ("arn:aws:iam::None:role/" ++ role) "TestRoleSession" with
    | error m => simp
    | ok c => simp

/-- Closed instance of the amended C1 at the concrete failing environment. -/
theorem c1_amended_witness :
    (get_current_role_arn cexEnvC1).1 = none
    ∧ AwsCall.getRole "TestRole" ∈ (auto_assume cexEnvC1 "TestRole").2.1
    ∧ AwsCall.assumeRole ("arn:aws:iam::None:role/" ++ "TestRole") "TestRoleSession"
        ∈ (auto_assume cexEnvC1 "TestRole").2.1
    ∧ ((auto_assume cexEnvC1 "TestRole").1 = none
        ↔ ∃ msg, cexEnvC1.stsAssumeRole ("arn:aws:iam::None:role/" ++ "TestRole")
            "TestRoleSession" = Except.error msg) :=
  c1_amended cexEnvC1 "TestRole" "network error" rfl

/-! ## Claims C8 and C9 -/

/-- Claim C8: when the account id resolves, `construct_role_arn` formats
exactly the string with the fixed `aws` partition. -/
theorem c8_construct_role_arn (env : Env) (role_name : String) (idt : Identity)
    (h : env.callerIdentity = Except.ok idt) :
    (construct_role_arn env role_name).1
      = "arn:aws:iam::" ++ idt.account ++ ":role/" ++ role_name := by
  simp [construct_role_arn, get_current_account_id, h, pyStr]

/-- Environment whose caller identity is account `123456789012`. -/
def c8Env : Env :=
  { callerIdentity :=
      Except.ok ⟨"123456789012", "arn:aws:iam::123456789012:role/Caller"⟩
  , getRole := fun _ => Except.ok ⟨some []⟩
  , updatePolicy := fun _ _ => Except.ok ()
  , stsAssumeRole := fun _ _ => Except.error "AccessDenied" }

/-- Closed instance of C8: account `123456789012` and role name `TestRole`
give exactly `arn:aws:iam::123456789012:role/TestRole`. -/
theorem c8_construct_role_arn_witness :
    (construct_role_arn c8Env "TestRole").1
      = "arn:aws:iam::123456789012:role/TestRole" := by
  rw [c8_construct_role_arn c8Env "TestRole"
    ⟨"123456789012", "arn:aws:iam::123456789012:role/Caller"⟩ rfl]
  rfl

/-- Claim C9: when identity resolution fails, `construct_role_arn` neither
raises nor returns `None`: it returns an ARN-shaped string whose account
position holds the interpolated text `None`. -/
theorem c9_construct_role_arn_on_failure (env : Env) (role_name e : String)
    (h : env.callerIdentity = Except.error e) :
    (construct_role_arn env role_name).1 = "arn:aws:iam::None:role/" ++ role_name := by
  simp only [construct_role_arn, get_current_account_id, h, pyStr]
  rfl

/-- Environment whose caller-identity call raises. -/
def c9Env : Env :=
  { callerIdentity := Except.error "permission denied"
  , getRole := fun _ => Except.ok ⟨some []⟩
  , updatePolicy := fun _ _ => Except.ok ()
  , stsAssumeRole := fun _ _ => Except.error "AccessDenied" }

/-- Closed instance of C9 at a concrete failing environment. -/
theorem c9_witness :
    (construct_role_arn c9Env "TestRole").1 = "arn:aws:iam::None:role/" ++ "TestRole" :=
  c9_construct_role_arn_on_failure c9Env "TestRole" "permission denied" rfl

/-! ## Claim C2 -/

/-- Claim C2: starting from a trust policy with a `Statement` list in which
the code's scan finds no match for the granting ARN, the first invocation of
`update_trust_policy` issues exactly one write (appending the new Allow
statement), the resulting document has exactly one Allow statement whose
`Principal.AWS` contains the ARN, and a second invocation against the
persisted document issues no write at all. -/
theorem c2_idempotent_grant (env1 env2 : Env) (target a : String) (stmts : List Stmt)
    (h1 : env1.getRole target = Except.ok ⟨some stmts⟩)
    (hscan : scanStatements (some a) stmts = Except.ok false)
    (hupd : env1.updatePolicy target ⟨some (stmts ++ [newStatement (some a)])⟩
        = Except.ok ())
    (h2 : env2.getRole target = Except.ok ⟨some (stmts ++ [newStatement (some a)])⟩) :
    (update_trust_policy env1 target (some a)).1
        = [AwsCall.getRole target,
           AwsCall.updateAssumeRolePolicy target
             ⟨some (stmts ++ [newStatement (some a)])⟩]
    ∧ countAllowMatching a (stmts ++ [newStatement (some a)]) = 1
    ∧ (update_trust_policy env2 target (some a)).1 = [AwsCall.getRole target] := by
  refine ⟨?_, ?_, ?_⟩
  · unfold update_trust_policy
    rw [h1]
    simp [hscan, hupd]
  · have hall : ∀ s ∈ stmts, matchesB a s = false := fun s hs =>
      matchesB_eq_false_of_stmtMatches a s
        (stmtMatches_of_scan_false (some a) stmts hscan s hs)
    have h0 : stmts.filter (matchesB a) = [] :=
      List.filter_eq_nil_iff.mpr fun s hs => by simp [hall s hs]
    unfold countAllowMatching
    rw [List.filter_append, h0]
    simp [matchesB_newStatement]
  · have hscan2 : scanStatements (some a) (stmts ++ [newStatement (some a)])
        = Except.ok true := by
      rw [scanStatements_append_of_false (some a) _ stmts hscan]
      simp [scanStatements, stmtMatches_newStatement]
    unfold update_trust_policy
    rw [h2]
    simp [hscan2]

/-- The granting ARN used in the concrete C2 scenario. -/
def c2Arn : String := "arn:aws:iam::123456789012:role/CallerRole"

/-- First-call environment for C2: the target role starts with an empty
`Statement` list and the write succeeds. -/
def c2Env1 : Env :=
  { callerIdentity := Except.ok ⟨"123456789012", c2Arn⟩
  , getRole := fun _ => Except.ok ⟨some []⟩
  , updatePolicy := fun _ _ => Except.ok ()
  , stsAssumeRole := fun _ _ => Except.error "AccessDenied" }

/-- Second-call environment for C2: `get_role` now returns the document the
first call persisted. -/
def c2Env2 : Env :=
  { callerIdentity := Except.ok ⟨"123456789012", c2Arn⟩
  , getRole := fun _ => Except.ok ⟨some [newStatement (some c2Arn)]⟩
  , updatePolicy := fun _ _ => Except.ok ()
  , stsAssumeRole := fun _ _ => Except.error "AccessDenied" }

/-- Closed instance of C2 for an initially empty `Statement` list. -/
theorem c2_idempotent_grant_witness :
    (update_trust_policy c2Env1 "TestRole" (some c2Arn)).1
        = [AwsCall.getRole "TestRole",
           AwsCall.updateAssumeRolePolicy "TestRole"
             ⟨some ([] ++ [newStatement (some c2Arn)])⟩]
    ∧ countAllowMatching c2Arn ([] ++ [newStatement (some c2Arn)]) = 1
    ∧ (update_trust_policy c2Env2 "TestRole" (some c2Arn)).1
        = [AwsCall.getRole "TestRole"] :=
  c2_idempotent_grant c2Env1 c2Env2 "TestRole" c2Arn [] rfl rfl rfl rfl

/-! ## Claim C3 -/

/-- Claim C3: the already-granted scan detects the granting ARN both when a
statement's `Principal.AWS` is the single string equal to the ARN and when
it is a list containing the ARN; in either case, with Effect `Allow` and the
statements before it not matching, `update_trust_policy` returns after the
get-role call only, without any write. -/
theorem c3_scan_detects_string_and_list (env : Env) (target a : String)
    (pre post : List Stmt) (s : Stmt)
    (heff : s.effect = some "Allow")
    (hp : s.principalAWS = some (AwsVal.str a)
        ∨ ∃ l, s.principalAWS = some (AwsVal.list l) ∧ a ∈ l)
    (hpre : scanStatements (some a) pre = Except.ok false)
    (hrole : env.getRole target = Except.ok ⟨some (pre ++ s :: post)⟩) :
    stmtMatches (some a) s = Except.ok true
    ∧ update_trust_policy env target (some a)
        = ([AwsCall.getRole target], [alreadyLog (some a) target]) := by
  have hm : stmtMatches (some a) s = Except.ok true := by
    unfold stmtMatches
    rw [if_pos heff]
    rcases hp with hstr | ⟨l, hl, hmem⟩
    · rw [hstr]
      simp [pyInAws, pyInStr_self]
    · rw [hl]
      simp only [pyInAws, Except.ok.injEq]
      simpa using hmem
  have hscan : scanStatements (some a) (pre ++ s :: post) = Except.ok true := by
    rw [scanStatements_append_of_false (some a) _ pre hpre]
    simp [scanStatements, hm]
  refine ⟨hm, ?_⟩
  unfold update_trust_policy
  rw [hrole]
  simp [hscan]

/-- Statement granting the ARN as a single string. -/
def c3StmtS : Stmt :=
  ⟨some "Allow", some (AwsVal.str c2Arn), some (AwsVal.str "sts:AssumeRole")⟩

/-- Statement granting the ARN inside a list. -/
def c3StmtL : Stmt :=
  ⟨some "Allow",
   some (AwsVal.list ["arn:aws:iam::123456789012:role/Other", c2Arn]),
   some (AwsVal.str "sts:AssumeRole")⟩

/-- Environment whose target role already grants the ARN as a string. -/
def c3EnvS : Env :=
  { callerIdentity := Except.ok ⟨"123456789012", c2Arn⟩
  , getRole := fun _ => Except.ok ⟨some [c3StmtS]⟩
  , updatePolicy := fun _ _ => Except.ok ()
  , stsAssumeRole := fun _ _ => Except.error "AccessDenied" }

/-- Environment whose target role already grants the ARN inside a list. -/
def c3EnvL : Env :=
  { callerIdentity := Except.ok ⟨"123456789012", c2Arn⟩
  , getRole := fun _ => Except.ok ⟨some [c3StmtL]⟩
  , updatePolicy := fun _ _ => Except.ok ()
  , stsAssumeRole := fun _ _ => Except.error "AccessDenied" }

/-- Closed instances of C3: one for the single-string form, one for the
list form of `Principal.AWS`. -/
theorem c3_witness :
    (stmtMatches (some c2Arn) c3StmtS = Except.ok true
      ∧ update_trust_policy c3EnvS "TestRole" (some c2Arn)
          = ([AwsCall.getRole "TestRole"], [alreadyLog (some c2Arn) "TestRole"]))
    ∧ (stmtMatches (some c2Arn) c3StmtL = Except.ok true
      ∧ update_trust_policy c3EnvL "TestRole" (some c2Arn)
          = ([AwsCall.getRole "TestRole"], [alreadyLog (some c2Arn) "TestRole"])) :=
  ⟨c3_scan_detects_string_and_list c3EnvS "TestRole" c2Arn [] [] c3StmtS rfl
      (Or.inl rfl) rfl rfl,
   c3_scan_detects_string_and_list c3EnvL "TestRole" c2Arn [] [] c3StmtL rfl
      (Or.inr ⟨["arn:aws:iam::123456789012:role/Other", c2Arn], rfl, by decide⟩) rfl rfl⟩

/-! ## Claim C4 -/

/-- Claim C4: if an existing Allow statement's `Principal.AWS` is a single
string of which the granting ARN is a substring — even a proper one, so that
no statement's principal equals the ARN — `update_trust_policy` treats the
grant as already present and returns after the get-role call, with no
write. -/
theorem c4_substring_false_positive (env : Env) (target a hay : String)
    (pre post : List Stmt) (s : Stmt)
    (heff : s.effect = some "Allow")
    (hp : s.principalAWS = some (AwsVal.str hay))
    (hsub : pyInStr a hay = true)
    (hne : a ≠ hay)
    (hpre : scanStatements (some a) pre = Except.ok false)
    (hrole : env.getRole target = Except.ok ⟨some (pre ++ s :: post)⟩) :
    s.principalAWS ≠ some (AwsVal.str a)
    ∧ update_trust_policy env target (some a)
        = ([AwsCall.getRole target], [alreadyLog (some a) target]) := by
  constructor
  · rw [hp]
    intro hcontra
    apply hne
    injection hcontra with h1
    injection h1 with h2
    exact h2.symm
  · have hm : stmtMatches (some a) s = Except.ok true := by
      unfold stmtMatches
      rw [if_pos heff, hp]
      simp [pyInAws, hsub]
    have hscan : scanStatements (some a) (pre ++ s :: post) = Except.ok true := by
      rw [scanStatements_append_of_false (some a) _ pre hpre]
      simp [scanStatements, hm]
    unfold update_trust_policy
    rw [hrole]
    simp [hscan]

/-- Statement whose single-string principal strictly contains the C4
granting ARN. -/
def c4Stmt : Stmt :=
  ⟨some "Allow", some (AwsVal.str "arn:aws:iam::123456789012:role/TestRole"),
   some (AwsVal.str "sts:AssumeRole")⟩

/-- Environment whose target role allows the longer principal only. -/
def c4Env : Env :=
  { callerIdentity := Except.ok ⟨"123456789012", "arn:aws:iam::123456789012:role/Test"⟩
  , getRole := fun _ => Except.ok ⟨some [c4Stmt]⟩
  , updatePolicy := fun _ _ => Except.ok ()
  , stsAssumeRole := fun _ _ => Except.error "AccessDenied" }

/-- Closed instance of C4: granting `.../role/Test` against an existing
principal `.../role/TestRole` is treated as already granted. -/
theorem c4_witness :
    c4Stmt.principalAWS ≠ some (AwsVal.str "arn:aws:iam::123456789012:role/Test")
    ∧ update_trust_policy c4Env "TestRole"
        (some "arn:aws:iam::123456789012:role/Test")
        = ([AwsCall.getRole "TestRole"],
           [alreadyLog (some "arn:aws:iam::123456789012:role/Test") "TestRole"]) :=
  c4_substring_false_positive c4Env "TestRole"
    "arn:aws:iam::123456789012:role/Test" "arn:aws:iam::123456789012:role/TestRole"
    [] [] c4Stmt rfl rfl (by decide) (by decide) rfl rfl

/-! ## Claim C5 -/

/-- Claim C5: for a trust-policy document with no `Statement` list, the
append step raises `KeyError`, the surrounding `except` clause catches it,
and `update_trust_policy` returns normally having issued no write. -/
theorem c5_missing_statement_graceful (env : Env) (target : String)
    (arn : Option String)
    (hrole : env.getRole target = Except.ok ⟨none⟩) :
    update_trust_policy env target arn
      = ([AwsCall.getRole target], [errorLog Exc.keyError]) := by
  unfold update_trust_policy
  rw [hrole]
  simp [scanStatements]

/-- Environment whose target role's trust policy lacks a `Statement` key. -/
def c5Env : Env :=
  { callerIdentity := Except.ok ⟨"123456789012", c2Arn⟩
  , getRole := fun _ => Except.ok ⟨none⟩
  , updatePolicy := fun _ _ => Except.ok ()
  , stsAssumeRole := fun _ _ => Except.error "AccessDenied" }

/-- Closed instance of C5. -/
theorem c5_witness :
    update_trust_policy c5Env "TestRole" (some c2Arn)
      = ([AwsCall.getRole "TestRole"], [errorLog Exc.keyError]) :=
  c5_missing_statement_graceful c5Env "TestRole" (some c2Arn) rfl

/-! ## Claim C6 -/

/-- Claim C6: an exception raised by the trust-policy fetch, and one raised
by the trust-policy update, are each caught and logged, and
`update_trust_policy` returns normally (the same void result as on
success) in both cases. -/
theorem c6_fetch_update_errors_swallowed (envF envU : Env) (target : String)
    (arn : Option String) (eF eU : String) (stmts : List Stmt)
    (hF : envF.getRole target = Except.error eF)
    (hU1 : envU.getRole target = Except.ok ⟨some stmts⟩)
    (hU2 : scanStatements arn stmts = Except.ok false)
    (hU3 : envU.updatePolicy target ⟨some (stmts ++ [newStatement arn])⟩
        = Except.error eU) :
    update_trust_policy envF target arn
        = ([AwsCall.getRole target], [errorLog (Exc.aws eF)])
    ∧ update_trust_policy envU target arn
        = ([AwsCall.getRole target,
            AwsCall.updateAssumeRolePolicy target ⟨some (stmts ++ [newStatement arn])⟩],
           [errorLog (Exc.aws eU)]) := by
  constructor
  · unfold update_trust_policy
    rw [hF]
  · unfold update_trust_policy
    rw [hU1]
    simp [hU2, hU3]

/-- Environment whose get-role call raises. -/
def c6EnvF : Env :=
  { callerIdentity := Except.ok ⟨"123456789012", c2Arn⟩
  , getRole := fun _ => Except.error "AccessDenied on GetRole"
  , updatePolicy := fun _ _ => Except.ok ()
  , stsAssumeRole := fun _ _ => Except.error "AccessDenied" }

/-- Environment whose update-assume-role-policy call raises. -/
def c6EnvU : Env :=
  { callerIdentity := Except.ok ⟨"123456789012", c2Arn⟩
  , getRole := fun _ => Except.ok ⟨some []⟩
  , updatePolicy := fun _ _ => Except.error "MalformedPolicyDocument"
  , stsAssumeRole := fun _ _ => Except.error "AccessDenied" }

/-- Closed instance of C6 at concrete failing environments. -/
theorem c6_witness :
    update_trust_policy c6EnvF "TestRole" (some c2Arn)
        = ([AwsCall.getRole "TestRole"],
           [errorLog (Exc.aws "AccessDenied on GetRole")])
    ∧ update_trust_policy c6EnvU "TestRole" (some c2Arn)
        = ([AwsCall.getRole "TestRole",
            AwsCall.updateAssumeRolePolicy "TestRole"
              ⟨some ([] ++ [newStatement (some c2Arn)])⟩],
           [errorLog (Exc.aws "MalformedPolicyDocument")]) :=
  c6_fetch_update_errors_swallowed c6EnvF c6EnvU "TestRole" (some c2Arn)
    "AccessDenied on GetRole" "MalformedPolicyDocument" [] rfl rfl rfl rfl

/-! ## Claim C7 -/

/-- Claim C7: each remote-call failure is caught at its own function's
boundary, logged with a human-readable message, and converted to a `None`
return; in particular `assume_role` returns `None` (it does not propagate
the exception) on any client error of the assume-role call. -/
theorem c7_remote_failures_to_null (env : Env) (eI eA ra : String)
    (hI : env.callerIdentity = Except.error eI)
    (hA : env.stsAssumeRole ra "TestRoleSession" = Except.error eA) :
    get_current_account_id env
        = (none, [AwsCall.getCallerIdentity],
           ["An error occurred while retrieving the current account ID: " ++ eI])
    ∧ get_current_role_arn env
        = (none, [AwsCall.getCallerIdentity],
           ["An error occurred while retrieving the current role ARN: " ++ eI])
    ∧ assume_role env ra
        = (none, [AwsCall.assumeRole ra "TestRoleSession"],
           ["Failed to assume role: " ++ eA]) := by
  refine ⟨?_, ?_, ?_⟩
  · unfold get_current_account_id
    rw [hI]
  · unfold get_current_role_arn
    rw [hI]
  · unfold assume_role
    rw [hA]

/-- Environment where both identity resolution and role assumption raise. -/
def c7Env : Env :=
  { callerIdentity := Except.error "connection timed out"
  , getRole := fun _ => Except.ok ⟨some []⟩
  , updatePolicy := fun _ _ => Except.ok ()
  , stsAssumeRole := fun _ _ => Except.error "AccessDenied" }

/-- Closed instance of C7. -/
theorem c7_witness :
    get_current_account_id c7Env
        = (none, [AwsCall.getCallerIdentity],
           ["An error occurred while retrieving the current account ID: "
             ++ "connection timed out"])
    ∧ get_current_role_arn c7Env
        = (none, [AwsCall.getCallerIdentity],
           ["An error occurred while retrieving the current role ARN: "
             ++ "connection timed out"])
    ∧ assume_role c7Env "arn:aws:iam::123456789012:role/TestRole"
        = (none,
           [AwsCall.assumeRole "arn:aws:iam::123456789012:role/TestRole"
             "TestRoleSession"],
           ["Failed to assume role: " ++ "AccessDenied"]) :=
  c7_remote_failures_to_null c7Env "connection timed out" "AccessDenied"
    "arn:aws:iam::123456789012:role/TestRole" rfl rfl

/-! ## Claim C10 -/

/-- Claim C10: the scan only considers statements with Effect `Allow`; when
the statement list contains a Deny statement whose principal is exactly the
granting ARN and the code's scan over the whole list finds no Allow match
(the list may hold further Allow statements for other principals),
`update_trust_policy` does not treat the grant as present: it appends the
new Allow statement and issues the write, and the persisted document keeps
the Deny statement alongside the new Allow one. -/
theorem c10_deny_not_treated_as_grant (env : Env) (target a : String)
    (stmts : List Stmt) (s : Stmt)
    (hs : s ∈ stmts)
    (hden : s.effect = some "Deny")
    (hprin : s.principalAWS = some (AwsVal.str a))
    (hscan : scanStatements (some a) stmts = Except.ok false)
    (hrole : env.getRole target = Except.ok ⟨some stmts⟩)
    (hupd : env.updatePolicy target ⟨some (stmts ++ [newStatement (some a)])⟩
        = Except.ok ()) :
    update_trust_policy env target (some a)
      = ([AwsCall.getRole target,
          AwsCall.updateAssumeRolePolicy target
            ⟨some (stmts ++ [newStatement (some a)])⟩],
         [updatedLog target (some a), waitingLog])
    ∧ s ∈ stmts ++ [newStatement (some a)]
    ∧ newStatement (some a) ∈ stmts ++ [newStatement (some a)]
    ∧ (newStatement (some a)).effect = some "Allow" := by
  refine ⟨?_, ?_, ?_, rfl⟩
  · unfold update_trust_policy
    rw [hrole]
    simp [hscan, hupd]
  · exact List.mem_append_left _ hs
  · exact List.mem_append_right _ (List.mem_singleton.mpr rfl)

/-- An Allow statement for a different principal, not containing the C10
granting ARN. -/
def c10Allow : Stmt :=
  ⟨some "Allow", some (AwsVal.str "arn:aws:iam::123456789012:role/Other"),
   some (AwsVal.str "sts:AssumeRole")⟩

/-- A Deny statement naming the granting ARN as its principal. -/
def c10Deny : Stmt :=
  ⟨some "Deny", some (AwsVal.str c2Arn), some (AwsVal.str "sts:AssumeRole")⟩

/-- Environment whose target role's trust policy holds an Allow statement
for another principal and the Deny statement for the granting ARN. -/
def c10Env : Env :=
  { callerIdentity := Except.ok ⟨"123456789012", c2Arn⟩
  , getRole := fun _ => Except.ok ⟨some [c10Allow, c10Deny]⟩
  , updatePolicy := fun _ _ => Except.ok ()
  , stsAssumeRole := fun _ _ => Except.error "AccessDenied" }

/-- Closed instance of C10: the only statement mentioning the granting ARN
is a Deny; an Allow for another principal is also present and scanned. -/
theorem c10_witness :
    update_trust_policy c10Env "TestRole" (some c2Arn)
      = ([AwsCall.getRole "TestRole",
          AwsCall.updateAssumeRolePolicy "TestRole"
            ⟨some ([c10Allow, c10Deny] ++ [newStatement (some c2Arn)])⟩],
         [updatedLog "TestRole" (some c2Arn), waitingLog])
    ∧ c10Deny ∈ [c10Allow, c10Deny] ++ [newStatement (some c2Arn)]
    ∧ newStatement (some c2Arn) ∈ [c10Allow, c10Deny] ++ [newStatement (some c2Arn)]
    ∧ (newStatement (some c2Arn)).effect = some "Allow" :=
  c10_deny_not_treated_as_grant c10Env "TestRole" c2Arn [c10Allow, c10Deny] c10Deny
    (by decide) rfl rfl rfl rfl rfl

end IamAutoAssume
